import Mathlib

/-!
Verification of the ion remote tracing subsystem and of `ion/math/rotation.h`.

The tracing handler itself (`ion/remote/tracinghandler.cc`) is not present in
the sources; only its test `ion/remote/tests/tracinghandler_test.cc` is.  The
definitions below therefore model the handler from the specification: the
trace-record data model, the trace tree builder, the deterministic HTML
renderer, the resource invalidator, the request coordinator (nonblocking
`trace_next_frame` and `clear`), and the save/restore discipline of the
tracing stream sink.  `ion/math/rotation.h` is present in the sources and is
embedded directly, with real numbers standing for the scalar type `T`.
-/

/-- Modelled from the spec: one atomic trace event of the Trace Stream
(section 3): a label-open record at an indentation depth, an intercepted call
record with its named, rendered arguments, or an error record that attaches to
the immediately preceding call record. -/
inductive TraceRecord where
  | labelRec (text : String) (depth : Nat)
  | callRec (functionName : String) (args : List (String × String))
  | errorRec (message : String)

/-- Modelled from the spec: a node of the trace tree (section 3): either a
`LabelNode` with ordered children, or a leaf `CallNode` carrying an optional
attached error message. -/
inductive TraceNode where
  | labelNode (text : String) (children : List TraceNode)
  | callNode (functionName : String) (args : List (String × String))
      (error : Option String)

/-- Modelled from the spec: the HTML for one `name = value` argument pair,
with styled spans for the argument name and the rendered value. -/
def argHtml (a : String × String) : String :=
  "<span class=\"trace_arg_name\">" ++ a.1 ++
  "</span> = <span class=\"trace_arg_value\">" ++ a.2 ++ "</span>"

/-- Modelled from the spec: the comma-separated argument list of a call item. -/
def argsHtml (args : List (String × String)) : String :=
  String.intercalate ", " (args.map argHtml)

/-- Modelled from the spec: the plain-text signature of a call, repeated
inside an attached error span: the function name followed by the
comma-separated `name = value` pairs in parentheses. -/
def callSignature (f : String) (args : List (String × String)) : String :=
  f ++ "(" ++ String.intercalate ", " (args.map fun a => a.1 ++ " = " ++ a.2) ++ ")"

/-- Modelled from the spec: the `<li>` item of a `CallNode`: the styled
function name followed by the styled argument pairs. -/
def callHtml (f : String) (args : List (String × String)) : String :=
  "<li><span class=\"trace_function\">" ++ f ++ "</span>(" ++ argsHtml args ++
  ")</li>\n"

/-- Modelled from the spec: the `<br>`-delimited styled error span rendered
immediately after the call it is attached to, containing the call signature
and the error message text. -/
def errorHtml (f : String) (args : List (String × String)) (msg : String) :
    String :=
  "<br><span class=\"trace_error\">***OpenGL Error: " ++ callSignature f args ++
  ": " ++ msg ++ "</span><br><br>\n"

/-- Modelled from the spec: the opening part of a `LabelNode` item: a checkbox
input with sequential id `list-<k>`, checked by default, the label text, and
the opening of the nested `<ul>` holding the children. -/
def labelOpenHtml (k : Nat) (text : String) : String :=
  "<li><input type =\"checkbox\" checked=\"checked\" id=\"list-" ++ toString k ++
  "\"/><label for=\"list-" ++ toString k ++ "\">" ++ text ++ "</label>\n<ul>\n"

/-- Modelled from the spec: the closing of a `LabelNode` item. -/
def labelCloseHtml : String := "</ul>\n</li>\n"

mutual

/-- Modelled from the spec: renders one trace node, threading the sequential
checkbox id counter through the render in document order. -/
def renderNode : TraceNode → Nat → String × Nat
  | TraceNode.labelNode text children, k =>
      let p := renderForest children (k + 1)
      (labelOpenHtml k text ++ p.1 ++ labelCloseHtml, p.2)
  | TraceNode.callNode f args none, k => (callHtml f args, k)
  | TraceNode.callNode f args (some msg), k =>
      (callHtml f args ++ errorHtml f args msg, k)

/-- Modelled from the spec: renders a list of sibling trace nodes in order,
threading the sequential checkbox id counter. -/
def renderForest : List TraceNode → Nat → String × Nat
  | [], k => ("", k)
  | n :: ns, k =>
      let p := renderNode n k
      let q := renderForest ns p.2
      (p.1 ++ q.1, q.2)

end

/-- Modelled from the spec: the header line of a rendered trace, naming the
frame at which the trace was captured, followed by the opening of the
`<div class="tree">` envelope. -/
def renderHeader (frame : Nat) : String :=
  "<span class=\"trace_header\">OpenGL trace at frame " ++ toString frame ++
  "</span><br><br>\n<div class=\"tree\">\n<ul>\n"

/-- Modelled from the spec: the closing of the tree envelope. -/
def renderFooter : String := "</ul>\n</div>\n"

/-- Modelled from the spec: the deterministic HTML rendering of one captured
trace tree: the header for the captured frame, the tree envelope, and the
nodes rendered with checkbox ids restarting at 0 for this render. -/
def renderTree (frame : Nat) (nodes : List TraceNode) : String :=
  renderHeader frame ++ (renderForest nodes 0).1 ++ renderFooter

mutual

/-- Modelled from the spec: number of `LabelNode`s in one node, itself
included when it is a label. -/
def labelCount : TraceNode → Nat
  | TraceNode.labelNode _ cs => 1 + labelCountForest cs
  | TraceNode.callNode _ _ _ => 0

/-- Modelled from the spec: number of `LabelNode`s in a list of nodes. -/
def labelCountForest : List TraceNode → Nat
  | [] => 0
  | n :: ns => labelCount n + labelCountForest ns

end

mutual

/-- Follows the spec's words, for comparison with `renderNode`: each label's
checkbox id is the base `k` plus the number of `LabelNode`s occurring before
it in document order, a function of document position only, with no threaded
state and no dependence on node identity. -/
def specRenderNode (k : Nat) : TraceNode → String
  | TraceNode.labelNode text cs =>
      labelOpenHtml k text ++ specRenderForest (k + 1) cs ++ labelCloseHtml
  | TraceNode.callNode f args none => callHtml f args
  | TraceNode.callNode f args (some msg) => callHtml f args ++ errorHtml f args msg

/-- Follows the spec's words, for comparison with `renderForest`: siblings are
rendered in order and a sibling's id base is the previous base plus the number
of labels the previous sibling contains. -/
def specRenderForest (k : Nat) : List TraceNode → String
  | [] => ""
  | n :: ns => specRenderNode k n ++ specRenderForest (k + labelCount n) ns

end

/-- Modelled from the spec: one open `LabelNode` scope of the tree builder
(section 4.2), keyed by the indentation-prefix length at which it was opened.
`children` collects nested labels closed into this scope; `siblings` collects
the call nodes appended after this label in its parent container, since this
implementation treats calls as siblings of labels rather than their children. -/
structure OpenLabel where
  depth : Nat
  text : String
  children : List TraceNode
  siblings : List TraceNode

/-- Modelled from the spec: the tree builder state: the stack of open labels,
innermost first, and the completed items of the tree root. -/
structure Builder where
  stack : List OpenLabel
  root : List TraceNode

/-- Modelled from the spec: the empty builder for a fresh frame. -/
def emptyBuilder : Builder := { stack := [], root := [] }

/-- Modelled from the spec: attaches an error message to a node when it is a
call node, and leaves a label node unchanged. -/
def attachErrNode (msg : String) : TraceNode → TraceNode
  | TraceNode.callNode f args _ => TraceNode.callNode f args (some msg)
  | n => n

/-- Modelled from the spec: attaches an error message to the most recently
appended node of a container when that node is a call node. -/
def attachErrLast (msg : String) : List TraceNode → List TraceNode
  | [] => []
  | n :: ns =>
      match ns with
      | [] => [attachErrNode msg n]
      | m :: ms => n :: attachErrLast msg (m :: ms)

/-- Modelled from the spec: closes a run of open label scopes, innermost
first; `pending` holds the items produced by already-closed inner scopes,
which become the children of the next label of the run; the result is the
item list the whole run contributes to the enclosing container. -/
def closeRun (pending : List TraceNode) : List OpenLabel → List TraceNode
  | [] => pending
  | f :: rest =>
      closeRun
        (TraceNode.labelNode f.text (f.children ++ pending) :: f.siblings) rest

/-- Modelled from the spec: appends a completed node after the innermost open
label (as its sibling), or to the root when no label is open. -/
def appendNode (n : TraceNode) (b : Builder) : Builder :=
  match b.stack with
  | [] => { b with root := b.root ++ [n] }
  | top :: rest =>
      { b with stack := { top with siblings := top.siblings ++ [n] } :: rest }

/-- Modelled from the spec: a label record at depth `d` closes all open labels
with depth at least `d`, then pushes a new `LabelNode` scope at depth `d`; the
closed run's items go to the nearest remaining open ancestor, or to the tree
root if none. -/
def applyLabelRecord (d : Nat) (text : String) (b : Builder) : Builder :=
  let parts := b.stack.span fun f => d ≤ f.depth
  let closed := closeRun [] parts.1
  let newScope : OpenLabel := { depth := d, text := text, children := [], siblings := [] }
  match parts.2 with
  | [] => { stack := [newScope], root := b.root ++ closed }
  | g :: gs =>
      { stack := newScope :: { g with children := g.children ++ closed } :: gs,
        root := b.root }

/-- Modelled from the spec: a call record becomes a `CallNode` appended as the
next sibling under the current top-of-stack scope. -/
def applyCallRecord (f : String) (args : List (String × String)) (b : Builder) :
    Builder :=
  appendNode (TraceNode.callNode f args none) b

/-- Modelled from the spec: an error record attaches to the most recently
appended `CallNode`. -/
def applyErrorRecord (msg : String) (b : Builder) : Builder :=
  match b.stack with
  | [] => { b with root := attachErrLast msg b.root }
  | top :: rest =>
      { b with stack := { top with siblings := attachErrLast msg top.siblings } :: rest }

/-- Modelled from the spec: one step of the tree builder. -/
def applyRecord (b : Builder) : TraceRecord → Builder
  | TraceRecord.labelRec text d => applyLabelRecord d text b
  | TraceRecord.callRec f args => applyCallRecord f args b
  | TraceRecord.errorRec msg => applyErrorRecord msg b

/-- Modelled from the spec: runs the tree builder over a record sequence. -/
def processRecords (rs : List TraceRecord) (b : Builder) : Builder :=
  rs.foldl applyRecord b

/-- Modelled from the spec: closes every still-open label scope at the end of
the captured frame and returns the completed root items. -/
def finishBuilder (b : Builder) : List TraceNode :=
  b.root ++ closeRun [] b.stack

/-- Modelled from the spec: the trace tree of one captured frame, built from
its ordered record sequence; an empty record stream yields an empty tree. -/
def buildTree (rs : List TraceRecord) : List TraceNode :=
  finishBuilder (processRecords rs emptyBuilder)

/-- Modelled from the spec: the request coordinator's retained state: the
monotonically increasing frame counter owned by the render loop, and the
accumulated rendered traces held until a `clear` request. -/
structure HandlerState where
  frameCounter : Nat
  retainedHtml : String

/-- Modelled from the spec: the HTML fragment rendered for one captured
frame: the trace tree built from the frame's records, rendered at the frame
counter current when the capture ran. -/
def capturedHtml (st : HandlerState) (records : List TraceRecord) : String :=
  renderTree st.frameCounter (buildTree records)

/-- Modelled from the spec: completing one captured frame: the frame counter
advances, and the freshly rendered trace is appended to the retained renders,
separated from them by a literal `<hr>` rule when any are retained. -/
def captureFrame (st : HandlerState) (records : List TraceRecord) : HandlerState :=
  { frameCounter := st.frameCounter + 1,
    retainedHtml :=
      if st.retainedHtml = "" then capturedHtml st records
      else st.retainedHtml ++ "<hr>\n" ++ capturedHtml st records }

/-- Modelled from the spec: a nonblocking `trace_next_frame` request: the next
frame is captured and the response is status 200 with the retained renders as
the body. The argument `records` is the record sequence the instrumented call
layer emits during the captured frame. -/
def handleTraceNextFrame (st : HandlerState) (records : List TraceRecord) :
    HandlerState × Nat × String :=
  let st2 := captureFrame st records
  (st2, 200, st2.retainedHtml)

/-- Modelled from the spec: a `clear` request resets any held rendering state
and responds with status 200 and the fixed literal body `clear`, independent
of frame state. -/
def handleClear (st : HandlerState) : HandlerState × Nat × String :=
  ({ st with retainedHtml := "" }, 200, "clear")

/-- The argument list of the observed `Uniform4fv` call: location 2, count 1,
and a pointer value rendered as the pointer address followed by the pointed-to
floats; the address is kept abstract. -/
def c1UniformArgs (addr : String) : List (String × String) :=
  [("location", "2"), ("count", "1"), ("value", addr ++ " -> [3; 4; 5; 6]")]

/-- The record sequence of the observed traced frame: a top-level label, the
`Clear` call, a second label emitted while the indentation prefix is still
empty, and the `Uniform4fv` call that raises the error `invalid operation`. -/
def c1Records (addr : String) : List TraceRecord :=
  [TraceRecord.labelRec "Top level label" 0,
   TraceRecord.callRec "Clear" [("mask", "GL_COLOR_BUFFER_BIT")],
   TraceRecord.labelRec "Nested label" 0,
   TraceRecord.callRec "Uniform4fv" (c1UniformArgs addr),
   TraceRecord.errorRec "invalid operation"]

/-- Modelled from the spec: the mutable tracing-stream slot of the graphics
call layer: which sink is currently installed, and the bytes so far written
to every sink, indexed by sink identity. -/
structure StreamState where
  current : Nat
  contents : Nat → String

/-- Modelled from the spec: an instrumented write appends to the currently
installed sink only. -/
def writeTrace (st : StreamState) (msg : String) : StreamState :=
  { st with
    contents := fun i =>
      if i = st.current then st.contents i ++ msg else st.contents i }

/-- Modelled from the spec: one full capture cycle: arming installs the
handler's sink in place of the prior one, the instrumented writes of the
captured frame go to the installed sink, and disarming restores the
previously installed sink. -/
def captureCycle (handlerSink : Nat) (writes : List String) (st : StreamState) :
    StreamState :=
  let armed := { st with current := handlerSink }
  let after := writes.foldl writeTrace armed
  { after with current := st.current }

/-- Modelled from the spec: the fixed enumeration of resource types the
render/resource layer understands. -/
inductive ResourceType where
  | attributeArrays
  | bufferObjects
  | framebufferObjects
  | samplers
  | shaderPrograms
  | shaders
  | textures
deriving DecidableEq

/-- Modelled from the spec: the case-sensitive name of each resource type. -/
def resourceTypeName : ResourceType → String
  | ResourceType.attributeArrays => "Attribute Arrays"
  | ResourceType.bufferObjects => "Buffer Objects"
  | ResourceType.framebufferObjects => "Framebuffer Objects"
  | ResourceType.samplers => "Samplers"
  | ResourceType.shaderPrograms => "Shader Programs"
  | ResourceType.shaders => "Shaders"
  | ResourceType.textures => "Textures"

/-- Modelled from the spec: the fixed enumeration as a list. -/
def allResourceTypes : List ResourceType :=
  [ResourceType.attributeArrays, ResourceType.bufferObjects,
   ResourceType.framebufferObjects, ResourceType.samplers,
   ResourceType.shaderPrograms, ResourceType.shaders, ResourceType.textures]

/-- Modelled from the spec: matches one requested name case-sensitively
against the fixed enumeration. -/
def parseResourceTypeName (s : String) : Option ResourceType :=
  allResourceTypes.find? fun t => resourceTypeName t = s

/-- Modelled from the spec: the deletion instructions issued to the resource
layer after the traced frame completes: one per recognized name, in request
order; unrecognized names are ignored without error. -/
def invalidateResources (names : List String) : List ResourceType :=
  names.filterMap parseResourceTypeName

/-- Splits a character list at commas, accumulating the current piece in
reverse. -/
def splitCommaAux : List Char → List Char → List String
  | [], acc => [String.mk acc.reverse]
  | c :: cs, acc =>
      if c = ',' then String.mk acc.reverse :: splitCommaAux cs []
      else splitCommaAux cs (c :: acc)

/-- Modelled from the spec: the comma-separated `resources_to_delete` query
value split into individual names. -/
def parseResourcesQuery (q : String) : List String := splitCommaAux q.data []

/-- The quaternion type of `ion/math/rotation.h` (`Vector<4, T>`), with real
numbers standing for the scalar type `T`: the vector part is `x y z`, the
scalar part is `w`. -/
structure Quat where
  x : ℝ
  y : ℝ
  z : ℝ
  w : ℝ

/-- The sum of squares of the four components (`LengthSquared`). -/
def Quat.normSquared (q : Quat) : ℝ :=
  q.x * q.x + q.y * q.y + q.z * q.z + q.w * q.w

/-- The length of the quaternion as a 4D vector. -/
noncomputable def Quat.length (q : Quat) : ℝ := Real.sqrt q.normSquared

/-- Modelled from the spec: the math library's vector normalization
(`ion::math::Normalized` of `ion/math/vectorutils.h`, which is not among the
sources): the vector scaled to unit length, or the zero vector when its
length is zero. -/
noncomputable def Normalized (q : Quat) : Quat :=
  if q.length = 0 then Quat.mk 0 0 0 0
  else Quat.mk (q.x / q.length) (q.y / q.length) (q.z / q.length)
    (q.w / q.length)

/-- The `Rotation` class of `ion/math/rotation.h`: a rotation stored as a
normalized quaternion. -/
structure Rotation where
  quat : Quat

/-- `Rotation::Identity()`: the identity rotation, quaternion `(0, 0, 0, 1)`. -/
def Rotation.identity : Rotation := ⟨Quat.mk 0 0 0 1⟩

/-- `Rotation::SetQuaternion` as used by `Rotation::FromQuaternion`: sets the
rotation from a quaternion, which is first normalized. -/
noncomputable def Rotation.fromQuaternion (q : Quat) : Rotation := ⟨Normalized q⟩

/-- `Rotation::operator-`: the inverse rotation; because the stored
quaternion is normalized, the inverse is found by negating the vector part. -/
def Rotation.negation (r : Rotation) : Rotation :=
  ⟨Quat.mk (-r.quat.x) (-r.quat.y) (-r.quat.z) r.quat.w⟩

/-- `Rotation::operator*`, which copies the left operand and applies
`operator*=` with the right operand: with `qt` the left quaternion and `qr`
the right one, the product components are computed as in the source and
passed through `SetQuaternion`, hence normalized again. -/
noncomputable def Rotation.mul (r0 r1 : Rotation) : Rotation :=
  let qt := r0.quat
  let qr := r1.quat
  ⟨Normalized (Quat.mk
      (qr.w * qt.x + qr.x * qt.w + qr.z * qt.y - qr.y * qt.z)
      (qr.w * qt.y + qr.y * qt.w + qr.x * qt.z - qr.z * qt.x)
      (qr.w * qt.z + qr.z * qt.w + qr.y * qt.x - qr.x * qt.y)
      (qr.w * qt.w - qr.x * qt.x - qr.y * qt.y - qr.z * qt.z))⟩

/-- `Rotation::operator==`: exact equality of the stored quaternions up to
componentwise negation (the unit-quaternion double cover of rotations). -/
def Rotation.eq (r0 r1 : Rotation) : Prop :=
  r0.quat = r1.quat ∨
  r0.quat = Quat.mk (-r1.quat.x) (-r1.quat.y) (-r1.quat.z) (-r1.quat.w)

mutual

theorem renderNode_eq_spec :
    ∀ (n : TraceNode) (k : Nat),
      renderNode n k = (specRenderNode k n, k + labelCount n)
  | TraceNode.labelNode text cs, k => by
      simp only [renderNode, specRenderNode, labelCount,
        renderForest_eq_spec cs (k + 1)]
      rw [Prod.mk.injEq]
      exact ⟨rfl, by omega⟩
  | TraceNode.callNode f args none, k => by
      simp [renderNode, specRenderNode, labelCount]
  | TraceNode.callNode f args (some msg), k => by
      simp [renderNode, specRenderNode, labelCount]

theorem renderForest_eq_spec :
    ∀ (ns : List TraceNode) (k : Nat),
      renderForest ns k = (specRenderForest k ns, k + labelCountForest ns)
  | [], k => by simp [renderForest, specRenderForest, labelCountForest]
  | n :: ns, k => by
      simp only [renderForest, specRenderForest, labelCountForest,
        renderNode_eq_spec n k, renderForest_eq_spec ns (k + labelCount n)]
      rw [Prod.mk.injEq]
      exact ⟨rfl, by omega⟩

end

theorem renderTree_nil (n : Nat) :
    renderTree n [] = renderHeader n ++ renderFooter := by
  simp [renderTree, renderForest, String.append_empty]

theorem renderTree_ne_empty (n : Nat) (ns : List TraceNode) :
    renderTree n ns ≠ "" := by
  intro h
  have h2 := congrArg String.length h
  simp only [renderTree, renderHeader, String.length_append] at h2
  have h3 : ("<span class=\"trace_header\">OpenGL trace at frame " : String).length = 49 := by
    decide
  have h4 : ("" : String).length = 0 := by decide
  omega

theorem attachErrLast_append_single (msg : String) (l : List TraceNode)
    (n : TraceNode) :
    attachErrLast msg (l ++ [n]) = l ++ [attachErrNode msg n] := by
  induction l with
  | nil => simp [attachErrLast]
  | cons a l ih =>
      cases l with
      | nil => simp [attachErrLast]
      | cons b l2 =>
          simp only [List.cons_append] at ih ⊢
          rw [attachErrLast]
          rw [ih]

theorem applyError_after_call (msg f : String) (args : List (String × String))
    (b : Builder) :
    applyErrorRecord msg (applyCallRecord f args b) =
      appendNode (TraceNode.callNode f args (some msg)) b := by
  cases b with
  | mk stack root =>
      cases stack with
      | nil =>
          simp [applyErrorRecord, applyCallRecord, appendNode,
            attachErrLast_append_single, attachErrNode]
      | cons top rest =>
          simp [applyErrorRecord, applyCallRecord, appendNode,
            attachErrLast_append_single, attachErrNode]

theorem foldl_writeTrace_current (writes : List String) (s : StreamState) :
    (writes.foldl writeTrace s).current = s.current := by
  induction writes generalizing s with
  | nil => rfl
  | cons w ws ih => simp [List.foldl, ih, writeTrace]

theorem foldl_writeTrace_other (writes : List String) (s : StreamState)
    (i : Nat) (h : i ≠ s.current) :
    (writes.foldl writeTrace s).contents i = s.contents i := by
  induction writes generalizing s with
  | nil => rfl
  | cons w ws ih =>
      rw [List.foldl_cons, ih]
      · simp [writeTrace, h]
      · simpa [writeTrace] using h

theorem normSquared_pos (q : Quat) (h : q ≠ Quat.mk 0 0 0 0) :
    0 < q.normSquared := by
  rcases q with ⟨x, y, z, w⟩
  have h2 : ¬(x = 0 ∧ y = 0 ∧ z = 0 ∧ w = 0) := by
    intro hc
    exact h (by simp [hc.1, hc.2.1, hc.2.2.1, hc.2.2.2])
  have hx := mul_self_nonneg x
  have hy := mul_self_nonneg y
  have hz := mul_self_nonneg z
  have hw := mul_self_nonneg w
  by_contra hle
  push_neg at hle
  simp only [Quat.normSquared] at hle
  have hx0 : x * x = 0 := by linarith
  have hy0 : y * y = 0 := by linarith
  have hz0 : z * z = 0 := by linarith
  have hw0 : w * w = 0 := by linarith
  exact h2 ⟨mul_self_eq_zero.mp hx0, mul_self_eq_zero.mp hy0,
    mul_self_eq_zero.mp hz0, mul_self_eq_zero.mp hw0⟩

theorem normalized_normSquared (q : Quat) (h : q ≠ Quat.mk 0 0 0 0) :
    (Normalized q).normSquared = 1 := by
  have hs := normSquared_pos q h
  have hL : 0 < q.length := Real.sqrt_pos.mpr hs
  have hLL : q.length * q.length = q.normSquared := Real.mul_self_sqrt hs.le
  have hL0 : q.length ≠ 0 := ne_of_gt hL
  simp only [Quat.normSquared] at hLL
  rw [Normalized, if_neg hL0]
  simp only [Quat.normSquared]
  field_simp
  linarith [hLL]

theorem normalized_unit_w : Normalized (Quat.mk 0 0 0 1) = Quat.mk 0 0 0 1 := by
  have h1 : (Quat.mk 0 0 0 1).length = 1 := by
    simp [Quat.length, Quat.normSquared]
  simp [Normalized, h1]

theorem mul_negation_of_unit (x y z w : ℝ)
    (hu : x * x + y * y + z * z + w * w = 1) :
    Rotation.mul (Rotation.mk (Quat.mk x y z w))
        (Rotation.negation (Rotation.mk (Quat.mk x y z w))) =
      Rotation.mk (Normalized (Quat.mk 0 0 0 1)) := by
  dsimp only [Rotation.mul, Rotation.negation]
  refine congrArg Rotation.mk (congrArg Normalized ?_)
  rw [Quat.mk.injEq]
  exact ⟨by ring, by ring, by ring, by linear_combination hu⟩

/-- C1: for a captured frame containing, in emission order, the top-level
label, the `Clear` call, the second label, and the `Uniform4fv` call that
raises `invalid operation`, the rendered body is exactly the header followed
by, in this order: the first label's collapsible node with an empty child
list, the `Clear` call item, the second label's collapsible node with an
empty child list, and the `Uniform4fv` call item immediately followed by the
inline error span repeating the call signature and the error message. -/
theorem c1_frame_render_order (addr : String) (n : Nat) :
    renderTree n (buildTree (c1Records addr)) =
      renderHeader n
      ++ (labelOpenHtml 0 "Top level label" ++ labelCloseHtml)
      ++ callHtml "Clear" [("mask", "GL_COLOR_BUFFER_BIT")]
      ++ (labelOpenHtml 1 "Nested label" ++ labelCloseHtml)
      ++ (callHtml "Uniform4fv" (c1UniformArgs addr)
          ++ errorHtml "Uniform4fv" (c1UniformArgs addr) "invalid operation")
      ++ renderFooter := by
  simp only [renderTree, buildTree, processRecords, finishBuilder, emptyBuilder,
    applyRecord, applyLabelRecord, applyCallRecord, applyErrorRecord, appendNode,
    attachErrLast, attachErrNode, closeRun, List.foldl, List.span,
    renderForest, renderNode, c1Records, c1UniformArgs]
  simp [String.append_assoc]

/-- C2 (amended): when no rendered traces are retained, a nonblocking
`trace_next_frame` request during which no calls and no labels are emitted
responds with status 200 and a body that is exactly the header line for the
current frame counter followed by the tree envelope with an empty list. -/
theorem c2_empty_frame_response (st : HandlerState)
    (h : st.retainedHtml = "") :
    handleTraceNextFrame st [] =
      (HandlerState.mk (st.frameCounter + 1)
          (renderHeader st.frameCounter ++ renderFooter), 200,
        renderHeader st.frameCounter ++ renderFooter) := by
  simp [handleTraceNextFrame, captureFrame, capturedHtml, h, renderTree_nil,
    buildTree, processRecords, finishBuilder, emptyBuilder, closeRun]

/-- C2 witness: the amended statement at the concrete fresh state of the
test, frame counter 2 and nothing retained. -/
theorem c2_empty_frame_response_witness :
    (HandlerState.mk 2 "").retainedHtml = "" ∧
      handleTraceNextFrame (HandlerState.mk 2 "") [] =
        (HandlerState.mk 3 (renderHeader 2 ++ renderFooter), 200,
          renderHeader 2 ++ renderFooter) :=
  ⟨rfl, c2_empty_frame_response (HandlerState.mk 2 "") rfl⟩

/-- C2 counterexample: the claim as stated is false: after an earlier trace
has been retained, a nonblocking request for a frame with no calls and no
labels does not return a body consisting exactly of the header line and the
empty envelope. -/
theorem c2_counterexample_retained :
    (handleTraceNextFrame
        (captureFrame (HandlerState.mk 2 "")
          [TraceRecord.callRec "Clear" [("mask", "GL_COLOR_BUFFER_BIT")]])
        []).2.2 ≠
      renderHeader 3 ++ renderFooter := by
  decide

/-- C3: a `clear` request always responds with status 200 and the literal
body `clear`, only resetting the retained renders, and any capture issued
after the clear renders from an empty retained state: its body is exactly the
newly rendered trace, containing nothing rendered before the clear. -/
theorem c3_clear_response (st : HandlerState) :
    handleClear st = ({ st with retainedHtml := "" }, 200, "clear")
    ∧ ∀ (records : List TraceRecord),
        (handleTraceNextFrame (handleClear st).1 records).2.2 =
          renderTree st.frameCounter (buildTree records) := by
  refine ⟨rfl, ?_⟩
  intro records
  simp [handleClear, handleTraceNextFrame, captureFrame, capturedHtml]

/-- C4: over a full capture cycle, arming installs the handler sink and
disarming restores the previously installed sink, identity unchanged, and no
instrumented write of the captured frame reaches the prior sink: its contents
are byte-for-byte untouched. -/
theorem c4_sink_save_restore (st : StreamState) (handlerSink : Nat)
    (writes : List String) (h : handlerSink ≠ st.current) :
    (captureCycle handlerSink writes st).current = st.current
    ∧ (captureCycle handlerSink writes st).contents st.current =
        st.contents st.current := by
  constructor
  · rfl
  · show (writes.foldl writeTrace _).contents st.current = _
    rw [foldl_writeTrace_other]
    exact fun hc => h (by simpa using hc.symm)

/-- C4 witness: a concrete cycle with one instrumented write on a distinct
handler sink leaves the prior sink installed and untouched. -/
theorem c4_sink_save_restore_witness :
    (1 : Nat) ≠ (StreamState.mk 0 fun _ => "").current ∧
      ((captureCycle 1 ["Clear(mask = GL_COLOR_BUFFER_BIT);"]
            (StreamState.mk 0 fun _ => "")).current =
          (StreamState.mk 0 fun _ => "").current
        ∧ (captureCycle 1 ["Clear(mask = GL_COLOR_BUFFER_BIT);"]
              (StreamState.mk 0 fun _ => "")).contents
            (StreamState.mk 0 fun _ => "").current =
          (StreamState.mk 0 fun _ => "").contents
            (StreamState.mk 0 fun _ => "").current) :=
  ⟨by decide, c4_sink_save_restore (StreamState.mk 0 fun _ => "") 1
    ["Clear(mask = GL_COLOR_BUFFER_BIT);"] (by decide)⟩

/-- C5: checkbox ids are purely positional: a render starting at id 0 equals
the closed-form render in which each label's id is the number of labels
before it in document order, it consumes exactly one id per label, and every
label item renders with the literal checked-by-default checkbox whose id is
`list-<k>` for its document position `k`. -/
theorem c5_checkbox_ids_positional (ns : List TraceNode) :
    renderForest ns 0 = (specRenderForest 0 ns, labelCountForest ns)
    ∧ ∀ (k : Nat) (text : String) (cs : List TraceNode),
        (renderNode (TraceNode.labelNode text cs) k).1 =
          "<li><input type =\"checkbox\" checked=\"checked\" id=\"list-" ++
          toString k ++ "\"/><label for=\"list-" ++ toString k ++ "\">" ++
          text ++ "</label>\n<ul>\n" ++ specRenderForest (k + 1) cs ++
          "</ul>\n</li>\n" := by
  constructor
  · simpa using renderForest_eq_spec ns 0
  · intro k text cs
    rw [renderNode_eq_spec]
    simp [specRenderNode, labelOpenHtml, labelCloseHtml, String.append_assoc]

/-- C6: the `resources_to_delete=Samplers,Shader Programs` query issues
exactly one deletion instruction per matching resource type, in order, and
none for any other type; names that match no resource type are ignored
without error. -/
theorem c6_resource_invalidation :
    invalidateResources (parseResourcesQuery "Samplers,Shader Programs") =
        [ResourceType.samplers, ResourceType.shaderPrograms]
      ∧ ∀ (names : List String) (extra : String),
          parseResourceTypeName extra = none →
            invalidateResources (names ++ [extra]) =
              invalidateResources names := by
  constructor
  · decide
  · intro names extra h
    simp [invalidateResources, h]

/-- C6 witness: an unrecognized name in the request set is dropped without
affecting the instructions for recognized names. -/
theorem c6_resource_invalidation_witness :
    parseResourceTypeName "Bogus Things" = none ∧
      invalidateResources (["Samplers"] ++ ["Bogus Things"]) =
        invalidateResources ["Samplers"] :=
  ⟨by decide, c6_resource_invalidation.2 ["Samplers"] "Bogus Things" (by decide)⟩

/-- C7: a call-layer error does not abort the trace: building a stream with a
call followed by an error record is the same as appending that call with the
error already attached, after which the remaining records of the frame are
processed unchanged; and the node renders as the call item immediately
followed by the `<br>`-delimited error span repeating the call signature and
the error message. -/
theorem c7_error_nonfatal (b : Builder) (f : String)
    (args : List (String × String)) (msg : String) (post : List TraceRecord) :
    processRecords
        (TraceRecord.callRec f args :: TraceRecord.errorRec msg :: post) b =
      processRecords post (appendNode (TraceNode.callNode f args (some msg)) b)
    ∧ ∀ (k : Nat),
        renderNode (TraceNode.callNode f args (some msg)) k =
          (callHtml f args ++
            ("<br><span class=\"trace_error\">***OpenGL Error: " ++
              (callSignature f args ++ (": " ++ (msg ++ "</span><br><br>\n")))),
            k) := by
  constructor
  · show List.foldl applyRecord b _ = _
    rw [List.foldl_cons, List.foldl_cons]
    show processRecords post _ = _
    rw [applyRecord, applyRecord, applyError_after_call]
  · intro k
    simp [renderNode, errorHtml, String.append_assoc]

/-- C8: rendering is a pure function of the tree and the frame number: it
equals a closed-form, history-free serialization of the tree, so the same
tree always renders to the same string, and the fragment captured for a frame
does not depend on any previously retained renders. -/
theorem c8_render_deterministic (n : Nat) (ns : List TraceNode)
    (h1 h2 : String) (records : List TraceRecord) :
    renderTree n ns = renderHeader n ++ specRenderForest 0 ns ++ renderFooter
    ∧ capturedHtml (HandlerState.mk n h1) records =
        capturedHtml (HandlerState.mk n h2) records := by
  refine ⟨?_, rfl⟩
  rw [renderTree, renderForest_eq_spec]

/-- C9: a capture performed while earlier renders are retained responds with
the retained renders followed by a literal `<hr>` rule and the newly rendered
trace, and the whole body is retained again for the next request, so renders
accumulate until a clear. -/
theorem c9_retained_accumulate (st : HandlerState)
    (records : List TraceRecord) (h : st.retainedHtml ≠ "") :
    (handleTraceNextFrame st records).2.2 =
      st.retainedHtml ++ "<hr>\n" ++
        renderTree st.frameCounter (buildTree records)
    ∧ (handleTraceNextFrame st records).1.retainedHtml =
        (handleTraceNextFrame st records).2.2 := by
  simp [handleTraceNextFrame, captureFrame, capturedHtml, h,
    String.append_assoc]

/-- C9 witness: with the empty-tree render of frame 2 retained, the next
capture's body is that render, an `<hr>` rule, and the new render, and is
retained in turn. -/
theorem c9_retained_accumulate_witness :
    (HandlerState.mk 3 (renderTree 2 [])).retainedHtml ≠ "" ∧
      ((handleTraceNextFrame (HandlerState.mk 3 (renderTree 2 [])) []).2.2 =
        (HandlerState.mk 3 (renderTree 2 [])).retainedHtml ++ "<hr>\n" ++
          renderTree (HandlerState.mk 3 (renderTree 2 [])).frameCounter
            (buildTree [])
      ∧ (handleTraceNextFrame (HandlerState.mk 3 (renderTree 2 []))
            []).1.retainedHtml =
          (handleTraceNextFrame (HandlerState.mk 3 (renderTree 2 [])) []).2.2) :=
  ⟨by decide, c9_retained_accumulate (HandlerState.mk 3 (renderTree 2 [])) []
    (by decide)⟩

/-- C10: for every Rotation constructed from a nonzero quaternion, composing
it with its negation yields the identity under the source's equality, which
identifies a quaternion with its componentwise negation. -/
theorem c10_rotation_mul_negation_identity (q : Quat)
    (hq : q ≠ Quat.mk 0 0 0 0) :
    Rotation.eq
      (Rotation.mul (Rotation.fromQuaternion q)
        (Rotation.negation (Rotation.fromQuaternion q)))
      Rotation.identity := by
  have hu := normalized_normSquared q hq
  simp only [Quat.normSquared] at hu
  rw [show Rotation.mul (Rotation.fromQuaternion q)
        (Rotation.negation (Rotation.fromQuaternion q)) =
      Rotation.mk (Normalized (Quat.mk 0 0 0 1)) from
    mul_negation_of_unit (Normalized q).x (Normalized q).y (Normalized q).z
      (Normalized q).w hu]
  rw [normalized_unit_w]
  exact Or.inl rfl

/-- C10 witness: the rotation built from the nonzero quaternion `(1,0,0,0)`
composed with its negation is the identity rotation. -/
theorem c10_rotation_mul_negation_identity_witness :
    Quat.mk (1 : ℝ) 0 0 0 ≠ Quat.mk 0 0 0 0 ∧
      Rotation.eq
        (Rotation.mul (Rotation.fromQuaternion (Quat.mk (1 : ℝ) 0 0 0))
          (Rotation.negation (Rotation.fromQuaternion (Quat.mk (1 : ℝ) 0 0 0))))
        Rotation.identity :=
  ⟨by simp, c10_rotation_mul_negation_identity (Quat.mk (1 : ℝ) 0 0 0) (by simp)⟩
